import Mathlib

/-!
Shallow embedding of the TensorFlow Lite hashtable custom operator
(tensorflow/lite/kernels/hashtable/hashtable.cc): the Init/Prepare/Eval
lifecycle of the `HashTableV2` custom op, which decodes a configuration
block, validates the key/value type pair, derives a 32-bit resource
handle from the table name, resizes the single output tensor, writes the
handle into it, and asks the subgraph resource registry to create the
backing hash table resource if it is not already present.

External collaborators that live outside the translated source file
(the flexbuffers decoder, ConvertTensorType, GetOutputSafe, and the
registry helper CreateHashtableResourceIfNotAvailable) are modelled from
the specification, as marked in their doc comments.  std::hash over
strings is implementation-defined, so the evaluation entry point is
parametrised by an arbitrary pure hash function, matching the spec's
"general-purpose string hash".
-/

/-- The TfLiteType enumeration (the members relevant to this kernel, plus
enough others to speak about unsupported pairings). -/
inductive TfLiteType where
  | noType
  | float32
  | int32
  | uint8
  | int64
  | string
  | bool
  | int16
  | complex64
  | int8
  | float16
  | float64
  | resource
  | variant
  deriving DecidableEq, Repr

/-- TfLiteStatus: the kernel entry points return kTfLiteOk or kTfLiteError. -/
inductive TfLiteStatus where
  | ok
  | error
  deriving DecidableEq, Repr

/-- TfLiteHashtableParams: the decoded configuration record owned by the
operation instance (table name plus key/value element types). -/
structure TfLiteHashtableParams where
  table_name : String
  key_dtype : TfLiteType
  value_dtype : TfLiteType
  deriving DecidableEq, Repr

/-- A TfLiteTensor as this kernel observes it: its declared element type,
its byte size, its shape (dims array), and the single int32 cell reachable
through data.i32 (the kernel only ever touches one cell). -/
structure TfLiteTensor where
  type : TfLiteType
  bytes : Nat
  dims : List Int
  dataI32 : Int
  deriving DecidableEq, Repr

/-- The backing resource the registry stores per handle: a hash table
typed by its key and value element types. -/
structure HashtableResource where
  key_dtype : TfLiteType
  value_dtype : TfLiteType
  deriving DecidableEq, Repr

/-- A TfLiteNode: lists of input and output tensor indices, plus the
opaque user_data pointer holding the decoded parameters (None models a
null pointer). -/
structure TfLiteNode where
  inputs : List Nat
  outputs : List Nat
  user_data : Option TfLiteHashtableParams
  deriving DecidableEq, Repr

/-- The slice of TfLiteContext / Subgraph state this kernel touches: the
tensor arena (indexed by tensor id) and the subgraph resource registry
(an association list from resource id to resource). -/
structure TfLiteContext where
  tensors : List TfLiteTensor
  resources : List (Int × HashtableResource)
  deriving DecidableEq, Repr

/-- NumInputs(node): size of the node input index array. -/
def NumInputs (node : TfLiteNode) : Nat :=
  node.inputs.length

/-- NumOutputs(node): size of the node output index array. -/
def NumOutputs (node : TfLiteNode) : Nat :=
  node.outputs.length

/-- Modelled from the spec: the execution context "supplies input/output
slot descriptors by index" and the kernel "requires index 0 of the output
side to exist".  GetOutputSafe (kernel_util, not under src/) looks up the
node output at the given index and the tensor it names, failing (None,
which the caller turns into an error status) if either is missing. -/
def GetOutputSafe (context : TfLiteContext) (node : TfLiteNode)
    (index : Nat) : Option (Nat × TfLiteTensor) :=
  (node.outputs[index]?).bind
    (fun t => (context.tensors[t]?).map (fun tensor => (t, tensor)))

/-- The supported key/value type pairing check from PrepareHashtable:
(int64, string) or (string, int64). -/
def typePairSupported (params : TfLiteHashtableParams) : Bool :=
  (params.key_dtype == TfLiteType.int64 &&
      params.value_dtype == TfLiteType.string) ||
    (params.key_dtype == TfLiteType.string &&
      params.value_dtype == TfLiteType.int64)

/-- PrepareHashtable: checks arity (0 inputs, 1 output), non-null
user_data, non-empty table name, supported type pair, locates output
tensor 0, checks its declared type is resource or int32, then resizes it
to one int32 (4 bytes) with shape [1].  Every TF_LITE_ENSURE failure
returns kTfLiteError with the context untouched. -/
def PrepareHashtable (context : TfLiteContext) (node : TfLiteNode) :
    TfLiteStatus × TfLiteContext :=
  if NumInputs node ≠ 0 then (.error, context)
  else if NumOutputs node ≠ 1 then (.error, context)
  else
    match node.user_data with
    | none => (.error, context)
    | some params =>
      if params.table_name.isEmpty then (.error, context)
      else if ¬ typePairSupported params then (.error, context)
      else
        match GetOutputSafe context node 0 with
        | none => (.error, context)
        | some (t, resource_handle_tensor) =>
          if resource_handle_tensor.type == TfLiteType.resource ||
              resource_handle_tensor.type == TfLiteType.int32 then
            (.ok, { context with
              tensors := context.tensors.set t
                { resource_handle_tensor with bytes := 4, dims := [1] } })
          else (.error, context)

/-- Truncation/cast of the size_t hash value to a 32-bit signed integer,
as in `const int32_t resource_id = std::hash<std::string>{}(...)`. -/
def toInt32 (n : Nat) : Int :=
  if n % 2 ^ 32 < 2 ^ 31 then ((n % 2 ^ 32 : Nat) : Int)
  else ((n % 2 ^ 32 : Nat) : Int) - 2 ^ 32

/-- The handle derivation of EvalHashtable: hash the table name and cast
to int32.  The hash itself (std::hash) is implementation-defined and is
passed in as a pure function. -/
def deriveHandle (hash : String → Nat) (table_name : String) : Int :=
  toInt32 (hash table_name)

/-- Modelled from the spec: the registry exposes
"create_if_absent(handle, key_type, value_type)" — if no resource is
registered under the id, register a fresh hash table with the given
key/value types; otherwise leave the registry unchanged.
(CreateHashtableResourceIfNotAvailable lives in
lite/experimental/resource, not under src/.) -/
def CreateHashtableResourceIfNotAvailable
    (resources : List (Int × HashtableResource)) (resource_id : Int)
    (key_dtype value_dtype : TfLiteType) : List (Int × HashtableResource) :=
  match resources.lookup resource_id with
  | some _ => resources
  | none => (resource_id, ⟨key_dtype, value_dtype⟩) :: resources

/-- EvalHashtable: requires non-null user_data, computes the resource id
from the table name, locates output tensor 0 (error if missing), writes
the id into the tensor's int32 cell, and invokes the registry's
create-if-absent with the id and the configured key/value types.  Always
returns kTfLiteOk after the output tensor is located. -/
def EvalHashtable (hash : String → Nat) (context : TfLiteContext)
    (node : TfLiteNode) : TfLiteStatus × TfLiteContext :=
  match node.user_data with
  | none => (.error, context)
  | some params =>
    let resource_id := deriveHandle hash params.table_name
    match GetOutputSafe context node 0 with
    | none => (.error, context)
    | some (t, resource_handle_tensor) =>
      let context1 := { context with
        tensors := context.tensors.set t
          { resource_handle_tensor with dataI32 := resource_id } }
      (.ok, { context1 with
        resources := CreateHashtableResourceIfNotAvailable
          context1.resources resource_id params.key_dtype
          params.value_dtype })

/-- Iterated execution: run EvalHashtable n times, threading the context
(the status of each run is produced and discarded by the host executor). -/
def evalIter (hash : String → Nat) (node : TfLiteNode) :
    Nat → TfLiteContext → TfLiteContext
  | 0, context => context
  | n + 1, context => evalIter hash node n (EvalHashtable hash context node).2

/-- The TensorType codes of the flatbuffer schema (the wire-format enum
decoded out of the configuration block). -/
inductive TensorType where
  | FLOAT32
  | FLOAT16
  | INT32
  | UINT8
  | INT64
  | STRING
  | BOOL
  | INT16
  | COMPLEX64
  | INT8
  | FLOAT64
  | RESOURCE
  | VARIANT
  deriving DecidableEq, Repr

/-- Modelled from the spec: the "type-code translation service" mapping a
wire-format type code to the internal element-type enumeration, "assumed
to always succeed for valid input schemas" (ConvertTensorType from
lite/core/api/flatbuffer_conversions, not under src/). -/
def ConvertTensorType : TensorType → TfLiteType
  | .FLOAT32 => .float32
  | .FLOAT16 => .float16
  | .INT32 => .int32
  | .UINT8 => .uint8
  | .INT64 => .int64
  | .STRING => .string
  | .BOOL => .bool
  | .INT16 => .int16
  | .COMPLEX64 => .complex64
  | .INT8 => .int8
  | .FLOAT64 => .float64
  | .RESOURCE => .resource
  | .VARIANT => .variant

/-- Modelled from the spec: the decoded form of the incoming
configuration block, "a binary self-describing map with required keys
shared_name (text), key_dtype (integer type code), value_dtype (integer
type code)" (the flexbuffers decoder itself is an external library). -/
structure ConfigBuffer where
  shared_name : String
  key_dtype : TensorType
  value_dtype : TensorType
  deriving DecidableEq, Repr

/-- The outcome of InitHashtable: either the process-level TFLITE_CHECK
assertion fired (crashed), or an owned parameter record was produced. -/
inductive InitResult where
  | crashed
  | params (p : TfLiteHashtableParams)
  deriving DecidableEq, Repr

/-- InitHashtable: TFLITE_CHECK(buffer != nullptr) — a null buffer is a
fatal assertion, not an error status.  Otherwise decode the flexbuffer
map, translate the two type codes, and return the owned parameter record
without any validity checking. -/
def InitHashtable (buffer : Option ConfigBuffer) : InitResult :=
  match buffer with
  | none => .crashed
  | some m =>
    .params { table_name := m.shared_name
              key_dtype := ConvertTensorType m.key_dtype
              value_dtype := ConvertTensorType m.value_dtype }

/-- A concrete well-formed configuration used by the closed witness
theorems: shared_name "t1", int64 keys, string values. -/
def paramsW : TfLiteHashtableParams :=
  { table_name := "t1", key_dtype := .int64, value_dtype := .string }

/-- A concrete output tensor of int32 type, as the planner declares it
before shape resolution. -/
def tensorW : TfLiteTensor :=
  { type := .int32, bytes := 0, dims := [], dataI32 := 0 }

/-- A concrete node: zero inputs, one output (tensor 0), decoded params. -/
def nodeW : TfLiteNode :=
  { inputs := [], outputs := [0], user_data := some paramsW }

/-- A concrete fresh context: one tensor, empty registry. -/
def ctxW : TfLiteContext :=
  { tensors := [tensorW], resources := [] }

/-- A concrete configuration with an unsupported type pair
(float32 keys are not accepted). -/
def paramsBad : TfLiteHashtableParams :=
  { table_name := "t1", key_dtype := .float32, value_dtype := .string }

/-- A concrete node carrying the unsupported configuration. -/
def nodeBad : TfLiteNode :=
  { inputs := [], outputs := [0], user_data := some paramsBad }

/-- A concrete configuration aliasing paramsW by table name but with the
other supported type pair. -/
def paramsW2 : TfLiteHashtableParams :=
  { table_name := "t1", key_dtype := .string, value_dtype := .int64 }

/-- A concrete node with one input slot (wrong arity). -/
def nodeIn : TfLiteNode :=
  { inputs := [0], outputs := [0], user_data := some paramsW }

/-- A concrete node with no output slot at index 0. -/
def nodeNoOut : TfLiteNode :=
  { inputs := [], outputs := [], user_data := some paramsW }

/-- A concrete node whose parameter record is null. -/
def nodeNull : TfLiteNode :=
  { inputs := [], outputs := [0], user_data := none }

/-! ## Helper lemmas -/

theorem toInt32_bounds (n : Nat) :
    -(2 ^ 31) ≤ toInt32 n ∧ toInt32 n < 2 ^ 31 := by
  unfold toInt32
  have h32 : n % 2 ^ 32 < 2 ^ 32 := Nat.mod_lt _ (by norm_num)
  split <;> omega

theorem getOutputSafe_some_elim (context : TfLiteContext) (node : TfLiteNode)
    (t : Nat) (tensor : TfLiteTensor)
    (h : GetOutputSafe context node 0 = some (t, tensor)) :
    node.outputs[0]? = some t ∧ context.tensors[t]? = some tensor := by
  unfold GetOutputSafe at h
  cases h0 : node.outputs[0]? with
  | none => rw [h0] at h; exact absurd h (by simp)
  | some u =>
    rw [h0, Option.some_bind] at h
    rw [Option.map_eq_some'] at h
    obtain ⟨tu, h1, h2⟩ := h
    have hu : u = t := congrArg Prod.fst h2
    have htu : tu = tensor := congrArg Prod.snd h2
    subst hu; subst htu
    exact ⟨rfl, h1⟩

theorem getOutputSafe_set (context context' : TfLiteContext)
    (node : TfLiteNode) (t : Nat) (tensor tensor' : TfLiteTensor)
    (h : GetOutputSafe context node 0 = some (t, tensor))
    (h' : context'.tensors = context.tensors.set t tensor') :
    GetOutputSafe context' node 0 = some (t, tensor') := by
  obtain ⟨h0, h1⟩ := getOutputSafe_some_elim context node t tensor h
  have hlt : t < context.tensors.length := by
    by_contra hge
    rw [List.getElem?_eq_none (by omega)] at h1
    exact absurd h1 (by simp)
  unfold GetOutputSafe
  rw [h0, Option.some_bind, h', List.getElem?_set_eq_of_lt _ hlt]
  rfl

theorem lookup_none_countP_zero (k : Int)
    (l : List (Int × HashtableResource)) (h : l.lookup k = none) :
    l.countP (fun e => e.1 == k) = 0 := by
  induction l with
  | nil => simp
  | cons x xs ih =>
    obtain ⟨a, r⟩ := x
    rw [List.lookup_cons] at h
    by_cases hk : k = a
    · subst hk; simp at h
    · have hk' : (k == a) = false := by simp [hk]
      rw [hk'] at h
      rw [List.countP_cons]
      have : ((a, r).1 == k) = false := by simp [Ne.symm hk]
      simp [this, ih h]

theorem evalHashtable_eq_of_located (hash : String → Nat)
    (context : TfLiteContext) (node : TfLiteNode)
    (params : TfLiteHashtableParams) (t : Nat) (tensor : TfLiteTensor)
    (hud : node.user_data = some params)
    (hout : GetOutputSafe context node 0 = some (t, tensor)) :
    EvalHashtable hash context node =
      (.ok,
        { tensors := (context.tensors.set t
            { tensor with dataI32 := deriveHandle hash params.table_name }),
          resources := (CreateHashtableResourceIfNotAvailable context.resources
            (deriveHandle hash params.table_name) params.key_dtype
            params.value_dtype) }) := by
  simp [EvalHashtable, hud, hout]

theorem evalIter_resources_stable (hash : String → Nat) (node : TfLiteNode)
    (params : TfLiteHashtableParams) (t : Nat)
    (hud : node.user_data = some params) :
    ∀ (n : Nat) (context : TfLiteContext) (tensor : TfLiteTensor)
      (r : HashtableResource),
      GetOutputSafe context node 0 = some (t, tensor) →
      context.resources.lookup (deriveHandle hash params.table_name) = some r →
      (evalIter hash node n context).resources = context.resources := by
  intro n
  induction n with
  | zero => intro context tensor r _ _; rfl
  | succ m ih =>
    intro context tensor r hout hlk
    have hres : CreateHashtableResourceIfNotAvailable context.resources
        (deriveHandle hash params.table_name) params.key_dtype
        params.value_dtype = context.resources := by
      unfold CreateHashtableResourceIfNotAvailable
      rw [hlk]
    have hstep : (EvalHashtable hash context node).2 =
        { tensors := (context.tensors.set t
            { tensor with dataI32 := deriveHandle hash params.table_name }),
          resources := context.resources } := by
      rw [evalHashtable_eq_of_located hash context node params t tensor hud
        hout]
      simp [hres]
    have hiter : evalIter hash node (m + 1) context =
        evalIter hash node m (EvalHashtable hash context node).2 := rfl
    rw [hiter, hstep]
    exact ih
      { tensors := (context.tensors.set t
          { tensor with dataI32 := deriveHandle hash params.table_name }),
        resources := context.resources }
      { tensor with dataI32 := deriveHandle hash params.table_name } r
      (getOutputSafe_set context _ node t tensor _ hout rfl) hlk

/-! ## Claim theorems -/

/-- Claim C1: for every configuration whose decoded parameters pass
validation, executing the operation writes the general-purpose string
hash of the table name, truncated/cast to a 32-bit signed integer, into
the output slot's single int32 cell, and requests create-if-absent on the
registry with that handle and the configured key/value types. -/
theorem eval_writes_handle_then_creates (hash : String → Nat)
    (context : TfLiteContext) (node : TfLiteNode)
    (params : TfLiteHashtableParams) (t : Nat) (tensor : TfLiteTensor)
    (hud : node.user_data = some params)
    (hname : params.table_name ≠ "")
    (htypes : typePairSupported params = true)
    (hout : GetOutputSafe context node 0 = some (t, tensor)) :
    (-(2 ^ 31) ≤ deriveHandle hash params.table_name ∧
        deriveHandle hash params.table_name < 2 ^ 31) ∧
      EvalHashtable hash context node =
        (.ok,
          { tensors := (context.tensors.set t
              { tensor with dataI32 := deriveHandle hash params.table_name }),
            resources := (CreateHashtableResourceIfNotAvailable
              context.resources (deriveHandle hash params.table_name)
              params.key_dtype params.value_dtype) }) :=
  ⟨toInt32_bounds (hash params.table_name),
    evalHashtable_eq_of_located hash context node params t tensor hud hout⟩

/-- Claim C2: for every N ≥ 1, after N executions with the same table
name in one context whose registry did not yet hold the derived handle,
exactly one resource exists in the registry for that handle, and every
execution after the first observes the same resource instance. -/
theorem eval_creates_exactly_once (hash : String → Nat)
    (context : TfLiteContext) (node : TfLiteNode)
    (params : TfLiteHashtableParams) (t : Nat) (tensor : TfLiteTensor)
    (n : Nat)
    (hud : node.user_data = some params)
    (hout : GetOutputSafe context node 0 = some (t, tensor))
    (habs : context.resources.lookup
      (deriveHandle hash params.table_name) = none)
    (hn : 1 ≤ n) :
    (evalIter hash node n context).resources.countP
        (fun e => e.1 == deriveHandle hash params.table_name) = 1 ∧
      (evalIter hash node n context).resources.lookup
          (deriveHandle hash params.table_name) =
        some ⟨params.key_dtype, params.value_dtype⟩ := by
  obtain ⟨m, rfl⟩ : ∃ m, n = m + 1 := ⟨n - 1, by omega⟩
  have hres : CreateHashtableResourceIfNotAvailable context.resources
      (deriveHandle hash params.table_name) params.key_dtype
      params.value_dtype =
      (deriveHandle hash params.table_name,
        ⟨params.key_dtype, params.value_dtype⟩) :: context.resources := by
    unfold CreateHashtableResourceIfNotAvailable
    rw [habs]
  have hstep : (EvalHashtable hash context node).2 =
      { tensors := (context.tensors.set t
          { tensor with dataI32 := deriveHandle hash params.table_name }),
        resources := ((deriveHandle hash params.table_name,
          ⟨params.key_dtype, params.value_dtype⟩) :: context.resources) } := by
    rw [evalHashtable_eq_of_located hash context node params t tensor hud hout]
    simp [hres]
  have hiter : evalIter hash node (m + 1) context =
      evalIter hash node m (EvalHashtable hash context node).2 := rfl
  rw [hiter, hstep]
  have hlk' : ((deriveHandle hash params.table_name,
      (⟨params.key_dtype, params.value_dtype⟩ : HashtableResource)) ::
        context.resources).lookup (deriveHandle hash params.table_name) =
      some ⟨params.key_dtype, params.value_dtype⟩ := by
    rw [List.lookup_cons]; simp
  have hstable := evalIter_resources_stable hash node params t hud m
    { tensors := (context.tensors.set t
        { tensor with dataI32 := deriveHandle hash params.table_name }),
      resources := ((deriveHandle hash params.table_name,
        ⟨params.key_dtype, params.value_dtype⟩) :: context.resources) }
    { tensor with dataI32 := deriveHandle hash params.table_name }
    ⟨params.key_dtype, params.value_dtype⟩
    (getOutputSafe_set context _ node t tensor _ hout rfl) hlk'
  rw [hstable]
  refine ⟨?_, hlk'⟩
  rw [List.countP_cons]
  simp [lookup_none_countP_zero _ _ habs]

/-- Claim C4: handle derivation is a pure, deterministic function of the
table name: deriving twice from the same name yields the same value, and
two parameter records with identical table names yield identical handles
regardless of their other fields. -/
theorem deriveHandle_deterministic (hash : String → Nat)
    (p1 p2 : TfLiteHashtableParams)
    (hname : p1.table_name ≠ "")
    (heq : p1.table_name = p2.table_name) :
    deriveHandle hash p1.table_name = deriveHandle hash p1.table_name ∧
      deriveHandle hash p1.table_name = deriveHandle hash p2.table_name :=
  ⟨rfl, by rw [heq]⟩

/-- Claim C7: if the output slot at index 0 cannot be located at
execution time, execution returns the error status and the context —
including the resource registry — is unchanged. -/
theorem eval_missing_output_aborts (hash : String → Nat)
    (context : TfLiteContext) (node : TfLiteNode)
    (params : TfLiteHashtableParams)
    (hud : node.user_data = some params)
    (hout : GetOutputSafe context node 0 = none) :
    EvalHashtable hash context node = (.error, context) := by
  simp [EvalHashtable, hud, hout]

/-- Claim C8: the configure entry point fails fatally (a process-level
assertion, not an error status) on a null buffer, and for every non-null
decodable buffer returns the owned parameter record with the decoded
table name and the two translated element types, with no validity
checking of those values. -/
theorem init_asserts_nonnull_and_decodes_all :
    InitHashtable none = .crashed ∧
      ∀ m : ConfigBuffer,
        InitHashtable (some m) =
          .params { table_name := m.shared_name,
                    key_dtype := ConvertTensorType m.key_dtype,
                    value_dtype := ConvertTensorType m.value_dtype } :=
  ⟨rfl, fun _ => rfl⟩

/-- Claim C9: both the shape-resolution and execution entry points return
an error status whenever the node's parameter record (user_data) is null,
so neither ever dereferences a null parameter record. -/
theorem null_params_rejected (hash : String → Nat)
    (context : TfLiteContext) (node : TfLiteNode)
    (hud : node.user_data = none) :
    (PrepareHashtable context node).1 = .error ∧
      (EvalHashtable hash context node).1 = .error := by
  constructor
  · unfold PrepareHashtable
    by_cases h1 : NumInputs node ≠ 0
    · simp [h1]
    · by_cases h2 : NumOutputs node ≠ 1
      · simp [h1, h2]
      · simp [h1, h2, hud]
  · simp [EvalHashtable, hud]

/-- Claim C10: once the output slot is located at execution time,
execution returns the success status for every parameter record and
every registry state — the registry's create-if-absent result is never
inspected. -/
theorem eval_ok_after_output_located (hash : String → Nat)
    (context : TfLiteContext) (node : TfLiteNode)
    (params : TfLiteHashtableParams) (t : Nat) (tensor : TfLiteTensor)
    (hud : node.user_data = some params)
    (hout : GetOutputSafe context node 0 = some (t, tensor)) :
    (EvalHashtable hash context node).1 = .ok := by
  rw [evalHashtable_eq_of_located hash context node params t tensor hud hout]

theorem prepare_eq_of_valid (context : TfLiteContext) (node : TfLiteNode)
    (params : TfLiteHashtableParams) (t : Nat) (tensor : TfLiteTensor)
    (h1 : NumInputs node = 0) (h2 : NumOutputs node = 1)
    (hud : node.user_data = some params)
    (h3 : params.table_name.isEmpty = false)
    (h4 : typePairSupported params = true)
    (hout : GetOutputSafe context node 0 = some (t, tensor))
    (h5 : (tensor.type == TfLiteType.resource ||
      tensor.type == TfLiteType.int32) = true) :
    PrepareHashtable context node =
      (.ok, { context with tensors := (context.tensors.set t
        { tensor with bytes := 4, dims := [1] }) }) := by
  simp [PrepareHashtable, h1, h2, hud, h3, h4, hout, h5]

theorem prepare_error_of_bad_types (context : TfLiteContext)
    (node : TfLiteNode) (params : TfLiteHashtableParams)
    (hud : node.user_data = some params)
    (h4 : typePairSupported params = false) :
    PrepareHashtable context node = (.error, context) := by
  unfold PrepareHashtable
  by_cases h1 : NumInputs node ≠ 0
  · simp [h1]
  · by_cases h2 : NumOutputs node ≠ 1
    · simp [h1, h2]
    · simp [h1, h2, hud, h4]

theorem prepare_ok_characterization (context : TfLiteContext)
    (node : TfLiteNode) (h : (PrepareHashtable context node).1 = .ok) :
    ∃ params t tensor,
      node.user_data = some params ∧
      NumInputs node = 0 ∧ NumOutputs node = 1 ∧
      params.table_name.isEmpty = false ∧
      typePairSupported params = true ∧
      GetOutputSafe context node 0 = some (t, tensor) ∧
      (tensor.type == TfLiteType.resource ||
        tensor.type == TfLiteType.int32) = true ∧
      PrepareHashtable context node =
        (.ok, { context with tensors := (context.tensors.set t
          { tensor with bytes := 4, dims := [1] }) }) := by
  have hP := h
  unfold PrepareHashtable at hP
  by_cases h1 : NumInputs node ≠ 0
  · rw [if_pos h1] at hP; simp at hP
  rw [if_neg h1] at hP
  by_cases h2 : NumOutputs node ≠ 1
  · rw [if_pos h2] at hP; simp at hP
  rw [if_neg h2] at hP
  cases hud : node.user_data with
  | none => rw [hud] at hP; simp at hP
  | some params =>
    rw [hud] at hP
    by_cases h3 : params.table_name.isEmpty
    · simp [h3] at hP
    by_cases h4 : typePairSupported params = true
    swap
    · simp [h3, h4] at hP
    cases hout : GetOutputSafe context node 0 with
    | none => simp [h3, h4, hout] at hP
    | some pt =>
      obtain ⟨t, tensor⟩ := pt
      have h1' : NumInputs node = 0 := by omega
      have h2' : NumOutputs node = 1 := by omega
      have h3' : params.table_name.isEmpty = false := by simpa using h3
      by_cases h5 : (tensor.type == TfLiteType.resource ||
        tensor.type == TfLiteType.int32) = true
      · exact ⟨params, t, tensor, rfl, h1', h2', h3', h4, rfl, h5,
          prepare_eq_of_valid context node params t tensor h1' h2' hud h3'
            h4 hout h5⟩
      · simp [h3, h4, hout, h5] at hP

/-- Claim C3: shape resolution succeeds only if the table name is
non-empty and the (key, value) type pair is (int64, string) or
(string, int64); for any other pair it fails with the error status and
the context (hence the output slot) is left unwritten. -/
theorem prepare_validates_name_and_types (context : TfLiteContext)
    (node : TfLiteNode) :
    ((PrepareHashtable context node).1 = .ok →
      ∃ params, node.user_data = some params ∧
        params.table_name ≠ "" ∧ typePairSupported params = true) ∧
      (∀ params, node.user_data = some params →
        typePairSupported params = false →
        PrepareHashtable context node = (.error, context)) := by
  constructor
  · intro h
    obtain ⟨params, t, tensor, hud, _, _, h3, h4, _⟩ :=
      prepare_ok_characterization context node h
    refine ⟨params, hud, ?_, h4⟩
    intro hempty
    rw [hempty] at h3
    exact absurd h3 (by decide)
  · intro params hud h4
    exact prepare_error_of_bad_types context node params hud h4

/-- Claim C6: shape resolution succeeds only for a node with exactly
zero input slots and exactly one output slot, and fails with the error
status (context unchanged) when the input count is nonzero or the output
count differs from one. -/
theorem prepare_arity_contract (context : TfLiteContext)
    (node : TfLiteNode) :
    ((PrepareHashtable context node).1 = .ok →
      NumInputs node = 0 ∧ NumOutputs node = 1) ∧
      (NumInputs node ≠ 0 ∨ NumOutputs node ≠ 1 →
        PrepareHashtable context node = (.error, context)) := by
  constructor
  · intro h
    obtain ⟨params, t, tensor, _, h1, h2, _⟩ :=
      prepare_ok_characterization context node h
    exact ⟨h1, h2⟩
  · intro h
    unfold PrepareHashtable
    by_cases h1 : NumInputs node ≠ 0
    · simp [h1]
    · have h2 : NumOutputs node ≠ 1 := by tauto
      simp [h1, h2]

/-- Claim C5: shape resolution accepts the output slot only when its
declared element type is resource or int32 (any other type yields the
error status with the context unchanged); on success the slot holds
exactly 4 bytes (one 32-bit integer) with shape [1] and otherwise
unchanged fields; and re-running shape resolution on the resulting
context yields exactly the same result (idempotence). -/
theorem prepare_output_contract (context : TfLiteContext)
    (node : TfLiteNode) :
    (∀ params t tensor, node.user_data = some params →
        GetOutputSafe context node 0 = some (t, tensor) →
        (tensor.type == TfLiteType.resource ||
          tensor.type == TfLiteType.int32) = false →
        PrepareHashtable context node = (.error, context)) ∧
      ((PrepareHashtable context node).1 = .ok →
        ∃ t tensor, GetOutputSafe context node 0 = some (t, tensor) ∧
          (PrepareHashtable context node).2.tensors[t]? =
            some { tensor with bytes := 4, dims := [1] }) ∧
      ((PrepareHashtable context node).1 = .ok →
        PrepareHashtable (PrepareHashtable context node).2 node =
          PrepareHashtable context node) := by
  refine ⟨?_, ?_, ?_⟩
  · intro params t tensor hud hout h5
    unfold PrepareHashtable
    by_cases h1 : NumInputs node ≠ 0
    · simp [h1]
    by_cases h2 : NumOutputs node ≠ 1
    · simp [h1, h2]
    by_cases h3 : params.table_name.isEmpty
    · simp [h1, h2, hud, h3]
    by_cases h4 : typePairSupported params = true
    · simp [h1, h2, hud, h3, h4, hout, h5]
    · simp [h1, h2, hud, h3, h4]
  · intro h
    obtain ⟨params, t, tensor, hud, h1, h2, h3, h4, hout, h5, hP⟩ :=
      prepare_ok_characterization context node h
    obtain ⟨h0, h1t⟩ := getOutputSafe_some_elim context node t tensor hout
    have hlt : t < context.tensors.length := by
      by_contra hge
      rw [List.getElem?_eq_none (by omega)] at h1t
      exact absurd h1t (by simp)
    refine ⟨t, tensor, hout, ?_⟩
    rw [hP]
    exact List.getElem?_set_eq_of_lt _ hlt
  · intro h
    obtain ⟨params, t, tensor, hud, h1, h2, h3, h4, hout, h5, hP⟩ :=
      prepare_ok_characterization context node h
    have hout' := getOutputSafe_set context
      { context with tensors := (context.tensors.set t
          { tensor with bytes := 4, dims := [1] }) }
      node t tensor { tensor with bytes := 4, dims := [1] } hout rfl
    have hP' := prepare_eq_of_valid
      { context with tensors := (context.tensors.set t
          { tensor with bytes := 4, dims := [1] }) }
      node params t { tensor with bytes := 4, dims := [1] }
      h1 h2 hud h3 h4 hout' h5
    rw [hP, hP']
    simp [List.set_set]

/-! ## Witnesses -/

theorem eval_writes_handle_then_creates_witness :
    nodeW.user_data = some paramsW ∧
      paramsW.table_name ≠ "" ∧
      typePairSupported paramsW = true ∧
      GetOutputSafe ctxW nodeW 0 = some (0, tensorW) ∧
      EvalHashtable String.length ctxW nodeW =
        (.ok,
          { tensors := (ctxW.tensors.set 0
              { tensorW with
                dataI32 := deriveHandle String.length paramsW.table_name }),
            resources := (CreateHashtableResourceIfNotAvailable
              ctxW.resources (deriveHandle String.length paramsW.table_name)
              paramsW.key_dtype paramsW.value_dtype) }) :=
  ⟨rfl, by decide, by decide, rfl,
    (eval_writes_handle_then_creates String.length ctxW nodeW paramsW 0
      tensorW rfl (by decide) (by decide) rfl).2⟩

theorem eval_creates_exactly_once_witness :
    ctxW.resources.lookup (deriveHandle String.length paramsW.table_name) =
        none ∧
      (evalIter String.length nodeW 3 ctxW).resources.countP
          (fun e => e.1 == deriveHandle String.length paramsW.table_name) =
        1 ∧
      (evalIter String.length nodeW 3 ctxW).resources.lookup
          (deriveHandle String.length paramsW.table_name) =
        some ⟨paramsW.key_dtype, paramsW.value_dtype⟩ :=
  ⟨rfl,
    (eval_creates_exactly_once String.length ctxW nodeW paramsW 0 tensorW 3
        rfl rfl rfl (by norm_num)).1,
    (eval_creates_exactly_once String.length ctxW nodeW paramsW 0 tensorW 3
        rfl rfl rfl (by norm_num)).2⟩

theorem prepare_validates_name_and_types_witness :
    nodeBad.user_data = some paramsBad ∧
      typePairSupported paramsBad = false ∧
      PrepareHashtable ctxW nodeBad = (.error, ctxW) :=
  ⟨rfl, by decide,
    (prepare_validates_name_and_types ctxW nodeBad).2 paramsBad rfl
      (by decide)⟩

theorem deriveHandle_deterministic_witness :
    paramsW.table_name ≠ "" ∧
      paramsW.table_name = paramsW2.table_name ∧
      deriveHandle String.length paramsW.table_name =
        deriveHandle String.length paramsW2.table_name :=
  ⟨by decide, rfl,
    (deriveHandle_deterministic String.length paramsW paramsW2 (by decide)
      rfl).2⟩

theorem prepare_output_contract_witness :
    (PrepareHashtable ctxW nodeW).1 = .ok ∧
      PrepareHashtable (PrepareHashtable ctxW nodeW).2 nodeW =
        PrepareHashtable ctxW nodeW :=
  ⟨by decide, (prepare_output_contract ctxW nodeW).2.2 (by decide)⟩

theorem prepare_arity_contract_witness :
    (NumInputs nodeIn ≠ 0 ∨ NumOutputs nodeIn ≠ 1) ∧
      PrepareHashtable ctxW nodeIn = (.error, ctxW) :=
  ⟨Or.inl (by decide),
    (prepare_arity_contract ctxW nodeIn).2 (Or.inl (by decide))⟩

theorem eval_missing_output_aborts_witness :
    nodeNoOut.user_data = some paramsW ∧
      GetOutputSafe ctxW nodeNoOut 0 = none ∧
      EvalHashtable String.length ctxW nodeNoOut = (.error, ctxW) :=
  ⟨rfl, rfl,
    eval_missing_output_aborts String.length ctxW nodeNoOut paramsW rfl rfl⟩

theorem null_params_rejected_witness :
    nodeNull.user_data = none ∧
      (PrepareHashtable ctxW nodeNull).1 = .error ∧
      (EvalHashtable String.length ctxW nodeNull).1 = .error :=
  ⟨rfl, null_params_rejected String.length ctxW nodeNull rfl⟩

theorem eval_ok_after_output_located_witness :
    nodeW.user_data = some paramsW ∧
      GetOutputSafe ctxW nodeW 0 = some (0, tensorW) ∧
      (EvalHashtable String.length ctxW nodeW).1 = .ok :=
  ⟨rfl, rfl,
    eval_ok_after_output_located String.length ctxW nodeW paramsW 0 tensorW
      rfl rfl⟩
